import Mathlib

/-!
Verification development for the Wayne Enterprises Secret Vault repository.

The Python sources (db.py, auth.py, app.py, security.py) are shallowly
embedded below: persistent database rows become Lean structures, the SQLite
table keyed by the unique email column becomes a function
String -> Option UserRecord, timestamps become natural-number seconds, and
code that may raise becomes Option / Except / an explicit failure flag.
Every definition is translated from the source file named in its doc
comment; definitions whose doc comment says otherwise follow the
specification text instead (for refinement comparisons).
-/

/-- Row of the users table (db.py: init_db / get_user column order). -/
structure UserRecord where
  email : String
  password_hash : String
  totp_secret : String
  failed_login_attempts : Nat
  lockout_until : Option Nat
  role : String
deriving Repr, DecidableEq

/-- Row of the audit_logs table (db.py: init_db). -/
structure AuditRecord where
  user_email : Option String
  action : String
  ip_address : String
deriving Repr, DecidableEq

/-- Row of the transactions table (db.py: init_db); the amount is kept as its
rendered text because only its appearance inside the audit action string
matters to the claims. -/
structure TxnRecord where
  user_email : String
  ttype : String
  amount : String
  category : String
  note_encrypted : Option String
deriving Repr, DecidableEq

/-- Database state: the users table as a map keyed by the UNIQUE email
column, plus the append-only audit_logs and transactions tables. -/
structure DBState where
  users : String → Option UserRecord
  audit_logs : List AuditRecord
  txns : List TxnRecord

/-- db.py get_user: SELECT ... FROM users WHERE email = ?. -/
def get_user (db : DBState) (email : String) : Option UserRecord :=
  db.users email

/-- UPDATE users SET ... WHERE email = ?: rewrite the row with that email,
leave every other row and the other tables unchanged. -/
def update_user (db : DBState) (email : String) (f : UserRecord → UserRecord) : DBState :=
  { db with users := fun e => if e == email then (db.users e).map f else db.users e }

/-- db.py update_failed_attempts: store the new count; when it has reached 5,
also set lockout_until to now + 15 minutes. -/
def update_failed_attempts (db : DBState) (email : String) (attempts : Nat) (now : Nat) : DBState :=
  if 5 ≤ attempts then
    update_user db email (fun u =>
      { u with failed_login_attempts := attempts, lockout_until := some (now + 15 * 60) })
  else
    update_user db email (fun u => { u with failed_login_attempts := attempts })

/-- db.py reset_failed_attempts: counter to 0, lockout_until to NULL. -/
def reset_failed_attempts (db : DBState) (email : String) : DBState :=
  update_user db email (fun u => { u with failed_login_attempts := 0, lockout_until := none })

/-- db.py is_account_locked: locked iff a stored lockout_until is still in the
future; when it has passed, the check itself resets the lockout state (lazy
unlock).  The Python function returns a Bool and mutates the database; here it
returns the Bool together with the possibly-updated database. -/
def is_account_locked (db : DBState) (email : String) (now : Nat) : Bool × DBState :=
  match get_user db email with
  | none => (false, db)
  | some u =>
    match u.lockout_until with
    | none => (false, db)
    | some t => if now < t then (true, db) else (false, reset_failed_attempts db email)

/-- db.py log_audit, success path: INSERT INTO audit_logs. -/
def log_audit (db : DBState) (email : String) (action : String) (ip : String) : DBState :=
  { db with audit_logs := db.audit_logs ++ [⟨some email, action, ip⟩] }

/-- The raw INSERT INTO audit_logs executed inside db.py log_audit; the
failure flag models the statement raising an exception. -/
def insert_audit (ok : Bool) (db : DBState) (r : AuditRecord) : Except String DBState :=
  if ok then Except.ok { db with audit_logs := db.audit_logs ++ [r] }
  else Except.error "insert failed"

/-- db.py log_audit with its try/except: an insert failure is swallowed
(only printed), leaving the database unchanged; the caller always gets a
plain DBState back, never an exception. -/
def log_audit_model (ok : Bool) (db : DBState) (email : String) (action ip : String) : DBState :=
  match insert_audit ok db ⟨some email, action, ip⟩ with
  | Except.ok db1 => db1
  | Except.error _ => db

/-- db.py add_transaction: try to INSERT the transaction (txnOk models that
statement raising), then call log_audit (whose own insert may fail, modelled
by auditOk) and return True; on a transaction-insert failure return False. -/
def add_transaction (txnOk auditOk : Bool) (db : DBState) (user_email ttype amount category : String)
    (note_encrypted : Option String) : Bool × DBState :=
  if txnOk then
    let db1 := { db with txns := db.txns ++ [⟨user_email, ttype, amount, category, note_encrypted⟩] }
    let db2 := log_audit_model auditOk db1 user_email
      ("Transaction added: " ++ ttype ++ " $" ++ amount) "0.0.0.0"
    (true, db2)
  else (false, db)

/-- One wrong-password login against an existing account, restricted to its
effect on the users table: auth.py login_form computes
new_attempts = failed_attempts + 1 and calls db.update_failed_attempts. -/
def failedLogin (db : DBState) (email : String) (now : Nat) : DBState :=
  match get_user db email with
  | none => db
  | some u => update_failed_attempts db email (u.failed_login_attempts + 1) now

/-- Streamlit session_state fields used by auth.py and app.py. -/
structure SessionState where
  authenticated : Bool
  totp_verified : Bool
  user_email : Option String
  totp_secret : Option String
  user_role : String
  last_activity : Nat
deriving Repr, DecidableEq

/-- Result of one submitted login form: the updated database, the updated
session, and the user-facing message shown by st.error / st.success. -/
structure LoginResult where
  db : DBState
  sess : SessionState
  message : String

/-- auth.py login_form, submit branch.  vp is security.verify_password
(password, stored hash), kept abstract because its SHA-256 internals are
irrelevant to the claims; now is the current time in seconds.  The branch
structure, the user-facing messages, and the audit actions are copied from
the source. -/
def login_submit (vp : String → String → Bool) (db : DBState) (sess : SessionState)
    (email password : String) (now : Nat) : LoginResult :=
  if email = "" ∨ password = "" then
    ⟨db, sess, "❌ Please enter both email and password"⟩
  else
    match is_account_locked db email now with
    | (true, db1) =>
      ⟨log_audit db1 email "Login attempt - account locked" "0.0.0.0", sess,
        "🔒 Account locked due to multiple failed login attempts. Please try again in 15 minutes."⟩
    | (false, db1) =>
      match get_user db1 email with
      | none =>
        ⟨log_audit db1 email "Login failed - user not found" "0.0.0.0", sess,
          "❌ Invalid credentials"⟩
      | some u =>
        if vp password u.password_hash then
          let db2 := reset_failed_attempts db1 email
          let sess2 := { sess with
            authenticated := true
            user_email := some email
            totp_secret := some u.totp_secret
            user_role := u.role
            last_activity := now }
          ⟨log_audit db2 email "Password verified - awaiting 2FA" "0.0.0.0", sess2,
            "✅ Password verified! Please enter your 2FA code."⟩
        else
          let newAttempts := u.failed_login_attempts + 1
          let db2 := update_failed_attempts db1 email newAttempts now
          let msg := if 0 < 5 - newAttempts then
              "❌ Invalid credentials. " ++ toString (5 - newAttempts) ++ " attempts remaining."
            else "🔒 Account locked for 15 minutes due to too many failed attempts."
          ⟨log_audit db2 email
              ("Login failed - incorrect password (attempt " ++ toString newAttempts ++ ")")
              "0.0.0.0", sess, msg⟩

/-- app.py check_session_timeout.  When authenticated and idle for more than
15 minutes it clears authenticated, totp_verified and user_email (and only
those fields), otherwise it refreshes last_activity; the second component is
the list of audit records the step appends, which in the source is empty on
every path (the function only shows a st.warning, it never calls log_audit). -/
def check_session_timeout (sess : SessionState) (now : Nat) : SessionState × List AuditRecord :=
  if sess.authenticated then
    if 15 * 60 < now - sess.last_activity then
      ({ sess with authenticated := false, totp_verified := false, user_email := none }, [])
    else
      ({ sess with last_activity := now }, [])
  else (sess, [])

/-- security.py: re.search of the character class [A-Z] (the pattern only
matches ASCII uppercase letters). -/
def hasUpper (p : String) : Bool :=
  p.data.any (fun c => decide ('A' ≤ c ∧ c ≤ 'Z'))

/-- security.py: re.search of the character class [a-z]. -/
def hasLower (p : String) : Bool :=
  p.data.any (fun c => decide ('a' ≤ c ∧ c ≤ 'z'))

/-- security.py: re.search of the digit class (ASCII digits). -/
def hasDigit (p : String) : Bool :=
  p.data.any (fun c => decide ('0' ≤ c ∧ c ≤ '9'))

/-- The special-character class of security.py password_policy_ok. -/
def specialChars : List Char :=
  ['!', '@', '#', '$', '%', '^', '&', '*', '(', ')', ',', '.', '?', '"', ':', '{', '}', '|', '<', '>']

/-- security.py: re.search of the special-character class. -/
def hasSpecial (p : String) : Bool :=
  p.data.any (fun c => specialChars.contains c)

/-- security.py password_policy_ok: the five checks in source order, each
returning its own message on the first failure. -/
def password_policy_ok (p : String) : Bool × String :=
  if p.length < 8 then
    (false, "Password must be at least 8 characters long")
  else if !hasUpper p then
    (false, "Password must contain at least one uppercase letter")
  else if !hasLower p then
    (false, "Password must contain at least one lowercase letter")
  else if !hasDigit p then
    (false, "Password must contain at least one number")
  else if !hasSpecial p then
    (false, "Password must contain at least one special character (!@#$%^&*)")
  else
    (true, "Password meets requirements")

/-- Modelled from the spec (section 4.1): the policy rules as an ordered list
of (satisfied, reason) pairs, in the deterministic order length, uppercase,
lowercase, digit, symbol. -/
def policyRules (p : String) : List (Bool × String) :=
  [(decide (8 ≤ p.length), "Password must be at least 8 characters long"),
   (hasUpper p, "Password must contain at least one uppercase letter"),
   (hasLower p, "Password must contain at least one lowercase letter"),
   (hasDigit p, "Password must contain at least one number"),
   (hasSpecial p, "Password must contain at least one special character (!@#$%^&*)")]

/-- Modelled from the spec (section 4.1): policyCheck rejects with the reason
of the FIRST violated rule in the fixed order, and accepts when every rule
holds. -/
def policyCheckSpec (p : String) : Bool × String :=
  match (policyRules p).find? (fun r => ! r.1) with
  | some r => (false, r.2)
  | none => (true, "Password meets requirements")

/-- A symmetric cipher as seen by security.py: enc / dec return none where
the underlying cryptography call would raise.  security.py builds one
process-wide instance from FERNET_KEY at import time. -/
structure Cipher where
  enc : String → Option String
  dec : String → Option String

/-- security.py encrypt_note: empty plaintext maps to the empty string
without touching the cipher; an encryption exception is swallowed and also
yields the empty string. -/
def encrypt_note (c : Cipher) (plaintext : String) : String :=
  if plaintext = "" then ""
  else
    match c.enc plaintext with
    | some ct => ct
    | none => ""

/-- security.py decrypt_note: empty ciphertext yields the empty string; a
decryption exception is swallowed and yields the fixed placeholder. -/
def decrypt_note (c : Cipher) (ciphertext : String) : String :=
  if ciphertext = "" then ""
  else
    match c.dec ciphertext with
    | some pt => pt
    | none => "[Decryption failed]"

/-- Decimal digit character of n % 10, as produced by str() in Python. -/
def digitChar (n : Nat) : Char :=
  match n % 10 with
  | 0 => '0' | 1 => '1' | 2 => '2' | 3 => '3' | 4 => '4'
  | 5 => '5' | 6 => '6' | 7 => '7' | 8 => '8' | _ => '9'

/-- pyotp generate_otp for a fixed secret: the HOTP value at a time step,
reduced mod 10^6 and zero-padded to exactly 6 digits (str(code).zfill(6)).
The HOTP compression itself stays abstract as hotp : Nat -> Nat because its
HMAC internals are irrelevant to the windowing claims. -/
def totp_code (hotp : Nat → Nat) (step : Nat) : String :=
  let v := hotp step % 1000000
  String.mk [digitChar (v / 100000), digitChar (v / 10000), digitChar (v / 1000),
             digitChar (v / 100), digitChar (v / 10), digitChar v]

/-- security.py verify_totp: pyotp TOTP.verify with valid_window=1 and a
30-second interval compares the token against the codes of the previous,
current and next time step and returns whether any comparison succeeds; the
surrounding try/except means the function is total and returns a Bool on
every input (time is in seconds; step arithmetic matches the source for
now at least 30). -/
def verify_totp (hotp : Nat → Nat) (token : String) (now : Nat) : Bool :=
  let step := now / 30
  (token == totp_code hotp (step - 1)) || (token == totp_code hotp step) ||
    (token == totp_code hotp (step + 1))

/-- The fixed audit-action vocabulary claimed by the spec (section 6). -/
def claimedAuditVocabulary : List String :=
  ["register", "login_fail_unknown_user", "login_fail_bad_password",
   "login_attempt_locked", "password_verified", "totp_verified", "totp_failed",
   "session_timeout", "logout", "add_transaction"]

/-- The free-text audit actions that auth.py login_form actually writes. -/
def actualLoginAction (a : String) : Prop :=
  a = "Login attempt - account locked" ∨
  a = "Login failed - user not found" ∨
  (∃ n : Nat, a = "Login failed - incorrect password (attempt " ++ toString n ++ ")") ∨
  a = "Password verified - awaiting 2FA"

lemma update_user_users_self (db : DBState) (email : String) (f : UserRecord → UserRecord) :
    (update_user db email f).users email = (db.users email).map f := by
  simp [update_user]

lemma update_user_audit_logs (db : DBState) (email : String) (f : UserRecord → UserRecord) :
    (update_user db email f).audit_logs = db.audit_logs := rfl

lemma update_failed_attempts_audit_logs (db : DBState) (email : String) (a now : Nat) :
    (update_failed_attempts db email a now).audit_logs = db.audit_logs := by
  unfold update_failed_attempts
  split <;> rfl

lemma reset_failed_attempts_audit_logs (db : DBState) (email : String) :
    (reset_failed_attempts db email).audit_logs = db.audit_logs := rfl

lemma is_account_locked_audit_logs (db : DBState) (email : String) (now : Nat) :
    ((is_account_locked db email now).2).audit_logs = db.audit_logs := by
  unfold is_account_locked
  cases hu : get_user db email with
  | none => rfl
  | some u =>
    cases hl : u.lockout_until with
    | none => simp [hl]
    | some t => by_cases h : now < t <;> simp [hl, h, reset_failed_attempts_audit_logs]

lemma digitChar_bounds (n : Nat) : '0' ≤ digitChar n ∧ digitChar n ≤ '9' := by
  unfold digitChar
  split <;> exact ⟨by decide, by decide⟩

lemma totp_code_length (hotp : Nat → Nat) (s : Nat) : (totp_code hotp s).length = 6 := rfl

lemma verify_totp_iff (hotp : Nat → Nat) (token : String) (now : Nat) :
    verify_totp hotp token now = true ↔
      token = totp_code hotp (now / 30 - 1) ∨ token = totp_code hotp (now / 30) ∨
        token = totp_code hotp (now / 30 + 1) := by
  simp [verify_totp, Bool.or_eq_true, beq_iff_eq, or_assoc]

lemma totp_code_digits (hotp : Nat → Nat) (s : Nat) (c : Char)
    (hc : c ∈ (totp_code hotp s).data) : '0' ≤ c ∧ c ≤ '9' := by
  have hdata : (totp_code hotp s).data =
      [digitChar (hotp s % 1000000 / 100000), digitChar (hotp s % 1000000 / 10000),
       digitChar (hotp s % 1000000 / 1000), digitChar (hotp s % 1000000 / 100),
       digitChar (hotp s % 1000000 / 10), digitChar (hotp s % 1000000)] := rfl
  rw [hdata] at hc
  simp only [List.mem_cons, List.not_mem_nil, or_false] at hc
  rcases hc with h | h | h | h | h | h
  all_goals (subst h; exact digitChar_bounds _)

/-- C7: verify_totp accepts exactly the codes of the previous, current and
next 30-second time step (the ±30s window of pyotp valid_window=1) and
rejects everything else; in particular any token that is not exactly 6
decimal digits is rejected, and the function is total (it returns a Bool,
mirroring the try/except in security.py that keeps malformed input from
raising). -/
theorem c7_totp_window_and_malformed (hotp : Nat → Nat) (token : String) (now : Nat) :
    (verify_totp hotp token now = true ↔
      token = totp_code hotp (now / 30 - 1) ∨ token = totp_code hotp (now / 30) ∨
        token = totp_code hotp (now / 30 + 1)) ∧
    (token.length ≠ 6 → verify_totp hotp token now = false) ∧
    ((∃ c ∈ token.data, ¬ ('0' ≤ c ∧ c ≤ '9')) → verify_totp hotp token now = false) := by
  refine ⟨verify_totp_iff hotp token now, ?_, ?_⟩
  · intro hlen
    cases hv : verify_totp hotp token now
    · rfl
    · exfalso
      rcases (verify_totp_iff hotp token now).mp hv with h | h | h <;>
        (subst h; exact hlen (totp_code_length hotp _))
  · rintro ⟨c, hc, hnd⟩
    cases hv : verify_totp hotp token now
    · rfl
    · exfalso
      rcases (verify_totp_iff hotp token now).mp hv with h | h | h <;>
        (subst h; exact hnd (totp_code_digits hotp _ c hc))

/-- Witness for C7 at a concrete secret model, token and time. -/
theorem c7_totp_witness :
    verify_totp (fun s => s) "000001" 60 = true ∧
    verify_totp (fun s => s) "12345" 60 = false := by
  constructor
  · exact (c7_totp_window_and_malformed (fun s => s) "000001" 60).1.mpr (Or.inl (by decide))
  · exact (c7_totp_window_and_malformed (fun s => s) "12345" 60).2.1 (by decide)

/-- C8: password_policy_ok coincides with the specification-side policyCheck
that rejects with the reason of the first violated rule in the fixed order
length, uppercase, lowercase, digit, symbol, and accepts when all five rules
hold. -/
theorem c8_policy_first_violation_order :
    ∀ p : String, password_policy_ok p = policyCheckSpec p := by
  intro p
  unfold password_policy_ok policyCheckSpec policyRules
  by_cases h1 : p.length < 8 <;>
    cases h2 : hasUpper p <;> cases h3 : hasLower p <;>
      cases h4 : hasDigit p <;> cases h5 : hasSpecial p <;>
        simp [List.find?, h1, h2, h3, h4, h5, Nat.not_lt.mp, decide_eq_true_eq,
          Nat.not_lt, Nat.lt_iff_add_one_le, Nat.not_le.mpr]

/-- C6: round-trip of the note cipher.  The Fernet primitive itself is only
assumed to round-trip (henc/hdec) and to produce non-empty tokens (hct), which
Fernet guarantees; under those facts the encrypt_note / decrypt_note wrappers
of security.py return exactly the original non-empty plaintext. -/
theorem c6_decrypt_encrypt_roundtrip (c : Cipher) (p ct : String)
    (hp : p ≠ "") (henc : c.enc p = some ct) (hct : ct ≠ "")
    (hdec : c.dec ct = some p) :
    decrypt_note c (encrypt_note c p) = p := by
  unfold encrypt_note decrypt_note
  simp only [if_neg hp, henc, if_neg hct, hdec]

/-- Concrete cipher instance used by the C6 witness. -/
def c6cipher : Cipher :=
  ⟨fun s => some ("T" ++ s), fun s => if s = "Thi" then some "hi" else none⟩

/-- Witness for C6 at a concrete cipher and plaintext. -/
theorem c6_roundtrip_witness : decrypt_note c6cipher (encrypt_note c6cipher "hi") = "hi" :=
  c6_decrypt_encrypt_roundtrip c6cipher "hi" "Thi" (by decide) (by decide) (by decide) (by decide)

/-- C10: encrypt_note returns the empty string both for the empty plaintext
and whenever the underlying encryption raises, so at its interface a failed
encryption is indistinguishable from the empty-note sentinel; being a total
Lean function it never propagates an exception. -/
theorem c10_encrypt_failure_empty (c : Cipher) (p : String) :
    encrypt_note c "" = "" ∧ (c.enc p = none → encrypt_note c p = "") := by
  constructor
  · rfl
  · intro h
    unfold encrypt_note
    by_cases hp : p = ""
    · simp [hp]
    · simp only [if_neg hp, h]

/-- Cipher whose encryption always raises, used by the C10 witness. -/
def c10cipher : Cipher := ⟨fun _ => none, fun _ => none⟩

/-- Witness for C10: a failing encryption of a non-empty note yields the same
empty string as the empty note. -/
theorem c10_encrypt_witness :
    encrypt_note c10cipher "boom" = "" ∧ encrypt_note c10cipher "" = "" :=
  ⟨(c10_encrypt_failure_empty c10cipher "boom").2 rfl,
   (c10_encrypt_failure_empty c10cipher "boom").1⟩

/-- C9: an audit-insert failure is swallowed by log_audit: the caller gets
the unchanged database back instead of an exception, a successful insert
appends the record, and db.py add_transaction keeps returning True (its
primary operation succeeds) whether or not its audit append fails. -/
theorem c9_audit_failure_swallowed (db : DBState)
    (email action ip ttype amount category : String) (note : Option String) :
    log_audit_model false db email action ip = db ∧
    log_audit_model true db email action ip = log_audit db email action ip ∧
    (∀ auditOk : Bool, (add_transaction true auditOk db email ttype amount category note).1 = true) ∧
    (add_transaction true false db email ttype amount category note).2.audit_logs = db.audit_logs := by
  refine ⟨rfl, rfl, ?_, rfl⟩
  intro auditOk
  cases auditOk <;> rfl

/-- An authenticated session for the C3 counterexample: idle for 901 seconds
(one past the 900-second threshold). -/
def c3sess : SessionState := ⟨true, true, some "bruce@wayne.com", some "SECRET", "admin", 0⟩

/-- Counterexample to C3 as stated: at 901 seconds of idle time the session
is indeed forced out, but the step emits NO audit record at all (so no
session_timeout record) and the totp_secret field survives, so not all
authentication fields are cleared. -/
theorem c3_counterexample :
    (check_session_timeout c3sess 901).1.authenticated = false ∧
    (check_session_timeout c3sess 901).2 = [] ∧
    (check_session_timeout c3sess 901).1.totp_secret = some "SECRET" := by
  decide

/-- C3 amended: past 900 seconds of idle time the step clears authenticated,
totp_verified and user_email (leaving totp_secret, user_role and
last_activity as they were) and appends no audit record; at or below 900
seconds it refreshes last_activity to now and stays authenticated. -/
theorem c3_amended_timeout_behavior (sess : SessionState) (now : Nat)
    (ha : sess.authenticated = true) :
    (900 < now - sess.last_activity →
      check_session_timeout sess now =
        ({ sess with authenticated := false, totp_verified := false, user_email := none }, [])) ∧
    (now - sess.last_activity ≤ 900 →
      check_session_timeout sess now = ({ sess with last_activity := now }, [])) := by
  constructor
  · intro h
    unfold check_session_timeout
    rw [ha]
    simp only [if_pos h, if_true]
  · intro h
    unfold check_session_timeout
    rw [ha]
    have hnot : ¬ (15 * 60 < now - sess.last_activity) := by omega
    simp [hnot]

/-- Witness for C3 amended, on the refresh branch at 500 seconds idle. -/
theorem c3_amended_witness :
    check_session_timeout ⟨true, false, some "e@f.com", none, "user", 0⟩ 500 =
      (⟨true, false, some "e@f.com", none, "user", 500⟩, []) :=
  (c3_amended_timeout_behavior ⟨true, false, some "e@f.com", none, "user", 0⟩ 500 rfl).2
    (by decide)

lemma failedLogin_users (db : DBState) (email : String) (t : Nat) (u : UserRecord)
    (hu : db.users email = some u) :
    (failedLogin db email t).users email =
      if 5 ≤ u.failed_login_attempts + 1 then
        some { u with failed_login_attempts := u.failed_login_attempts + 1, lockout_until := some (t + 15 * 60) }
      else
        some { u with failed_login_attempts := u.failed_login_attempts + 1 } := by
  unfold failedLogin get_user update_failed_attempts
  rw [hu]
  by_cases h : 5 ≤ u.failed_login_attempts + 1 <;>
    simp [h, update_user_users_self, get_user, hu]

/-- C2: starting from a clean account (counter 0, no lockout), five
consecutive wrong-password logins leave the row with counter 5 and
lockout_until set to the fifth failure time plus 15 minutes; while that
expiry is still in the future is_account_locked reports true without touching
the database, and on the first check at or after the expiry it reports false
and resets the row back to counter 0 and no lockout. -/
theorem c2_lockout_after_five_fails (db : DBState) (email : String) (u : UserRecord)
    (t1 t2 t3 t4 t5 : Nat) (db5 : DBState)
    (hu : db.users email = some u)
    (h0 : u.failed_login_attempts = 0)
    (hl : u.lockout_until = none)
    (h5 : db5 = failedLogin (failedLogin (failedLogin (failedLogin
      (failedLogin db email t1) email t2) email t3) email t4) email t5) :
    db5.users email =
      some { u with failed_login_attempts := 5, lockout_until := some (t5 + 15 * 60) } ∧
    (∀ now, now < t5 + 15 * 60 → is_account_locked db5 email now = (true, db5)) ∧
    (∀ now, t5 + 15 * 60 ≤ now →
      is_account_locked db5 email now = (false, reset_failed_attempts db5 email) ∧
      (reset_failed_attempts db5 email).users email =
        some { u with failed_login_attempts := 0, lockout_until := none }) := by
  have s1 := failedLogin_users db email t1 u hu
  rw [h0] at s1
  norm_num at s1
  have s2 := failedLogin_users _ email t2 _ s1
  norm_num at s2
  have s3 := failedLogin_users _ email t3 _ s2
  norm_num at s3
  have s4 := failedLogin_users _ email t4 _ s3
  norm_num at s4
  have s5 := failedLogin_users _ email t5 _ s4
  norm_num at s5
  rw [← h5] at s5
  have hfive : db5.users email =
      some { u with failed_login_attempts := 5, lockout_until := some (t5 + 15 * 60) } := s5
  refine ⟨hfive, ?_, ?_⟩
  · intro now hnow
    unfold is_account_locked get_user
    rw [hfive]
    simp [hnow]
  · intro now hnow
    constructor
    · unfold is_account_locked get_user
      rw [hfive]
      simp [Nat.not_lt.mpr hnow]
    · unfold reset_failed_attempts
      rw [update_user_users_self, hfive]
      rfl

/-- Clean single-user database for the C2 witness. -/
def c2db : DBState :=
  ⟨fun e => if e == "wayne@we.com" then some ⟨"wayne@we.com", "h2", "s2", 0, none, "user"⟩
    else none, [], []⟩

/-- The C2 witness database after five wrong-password logins at times
10, 20, 30, 40 and 50 seconds. -/
def c2db5 : DBState :=
  failedLogin (failedLogin (failedLogin (failedLogin
    (failedLogin c2db "wayne@we.com" 10) "wayne@we.com" 20) "wayne@we.com" 30)
    "wayne@we.com" 40) "wayne@we.com" 50

/-- Witness for C2: five concrete failures lock the account (checked at time
100, inside the window ending at 950) and the first check at time 950 resets
the row. -/
theorem c2_lockout_witness :
    is_account_locked c2db5 "wayne@we.com" 100 = (true, c2db5) ∧
    (reset_failed_attempts c2db5 "wayne@we.com").users "wayne@we.com" =
      some ⟨"wayne@we.com", "h2", "s2", 0, none, "user"⟩ := by
  have h := c2_lockout_after_five_fails c2db "wayne@we.com"
    ⟨"wayne@we.com", "h2", "s2", 0, none, "user"⟩ 10 20 30 40 50 c2db5
    (by decide) rfl rfl rfl
  exact ⟨h.2.1 100 (by norm_num), (h.2.2 950 (by norm_num)).2⟩

lemma is_account_locked_of_no_lockout (db : DBState) (email : String) (now : Nat)
    (u : UserRecord) (hu : db.users email = some u) (hl : u.lockout_until = none) :
    is_account_locked db email now = (false, db) := by
  simp [is_account_locked, get_user, hu, hl]

lemma is_account_locked_of_no_user (db : DBState) (email : String) (now : Nat)
    (hu : db.users email = none) :
    is_account_locked db email now = (false, db) := by
  unfold is_account_locked get_user
  rw [hu]

/-- Counterexample to C4 as stated: a correct password alone (second factor
not yet verified, totp_verified still false) already resets the counter from
2 to 0, so the reset does NOT wait for the login to fully succeed. -/
theorem c4_counterexample :
    (login_submit (fun p _ => p == "pw!")
      ⟨fun e => if e == "lucius@we.com" then some ⟨"lucius@we.com", "h", "s", 2, none, "user"⟩ else none, [], []⟩
      ⟨false, false, none, none, "user", 0⟩ "lucius@we.com" "pw!" 0).db.users "lucius@we.com" =
        some ⟨"lucius@we.com", "h", "s", 0, none, "user"⟩ ∧
    (login_submit (fun p _ => p == "pw!")
      ⟨fun e => if e == "lucius@we.com" then some ⟨"lucius@we.com", "h", "s", 2, none, "user"⟩ else none, [], []⟩
      ⟨false, false, none, none, "user", 0⟩ "lucius@we.com" "pw!" 0).sess.totp_verified = false := by
  decide

/-- C4 amended: the failed-attempt counter is reset to 0 (and the lockout
expiry cleared) as soon as the password verifies, BEFORE the second factor is
checked: right after the password step the session is still awaiting 2FA
(totp_verified unchanged) yet the stored counter is already 0, and the audit
trail records the password step. -/
theorem c4_amended_reset_on_password_verified (vp : String → String → Bool)
    (db : DBState) (sess : SessionState) (email password : String) (now : Nat)
    (u : UserRecord)
    (hne : email ≠ "") (hnp : password ≠ "")
    (hu : db.users email = some u) (hl : u.lockout_until = none)
    (hvp : vp password u.password_hash = true) :
    (login_submit vp db sess email password now).db.users email =
      some { u with failed_login_attempts := 0, lockout_until := none } ∧
    (login_submit vp db sess email password now).sess.totp_verified = sess.totp_verified ∧
    (login_submit vp db sess email password now).sess.authenticated = true ∧
    (login_submit vp db sess email password now).db.audit_logs =
      db.audit_logs ++ [⟨some email, "Password verified - awaiting 2FA", "0.0.0.0"⟩] := by
  have hlock := is_account_locked_of_no_lockout db email now u hu hl
  unfold login_submit
  rw [if_neg (by simp [hne, hnp]), hlock]
  simp [get_user, hu, hvp, log_audit, reset_failed_attempts,
    update_user_users_self, update_user_audit_logs]

/-- Password check for the C4 witness. -/
def c4vp : String → String → Bool := fun p _ => p == "open sesame"

/-- Single-user database for the C4 witness: 3 failures accumulated. -/
def c4db : DBState :=
  ⟨fun e => if e == "alfred@we.com" then some ⟨"alfred@we.com", "h4", "s4", 3, none, "user"⟩
    else none, [], []⟩

/-- Witness for C4 amended: the correct password resets the stored counter
from 3 to 0 while the session is still awaiting the second factor. -/
theorem c4_amended_witness :
    (login_submit c4vp c4db ⟨false, false, none, none, "user", 0⟩
        "alfred@we.com" "open sesame" 7).db.users "alfred@we.com" =
      some ⟨"alfred@we.com", "h4", "s4", 0, none, "user"⟩ ∧
    (login_submit c4vp c4db ⟨false, false, none, none, "user", 0⟩
        "alfred@we.com" "open sesame" 7).sess.totp_verified = false := by
  have h := c4_amended_reset_on_password_verified c4vp c4db
    ⟨false, false, none, none, "user", 0⟩ "alfred@we.com" "open sesame" 7
    ⟨"alfred@we.com", "h4", "s4", 3, none, "user"⟩
    (by decide) (by decide) (by decide) rfl (by decide)
  exact ⟨h.1, h.2.1⟩

/-- Single-user database for the C1 counterexample. -/
def c1db : DBState :=
  ⟨fun e => if e == "bruce@we.com" then some ⟨"bruce@we.com", "h1", "s1", 0, none, "user"⟩
    else none, [], []⟩

/-- Counterexample to C1 as stated: against the same database, the unknown
email gets the bare generic message while the registered email with a wrong
password gets the generic message PLUS a remaining-attempts suffix, so the
two user-facing responses differ and reveal that the second email is
registered. -/
theorem c1_counterexample :
    (login_submit (fun _ _ => false) c1db ⟨false, false, none, none, "user", 0⟩
        "x@y.com" "guess" 0).message = "❌ Invalid credentials" ∧
    (login_submit (fun _ _ => false) c1db ⟨false, false, none, none, "user", 0⟩
        "bruce@we.com" "guess" 0).message = "❌ Invalid credentials. 4 attempts remaining." ∧
    (login_submit (fun _ _ => false) c1db ⟨false, false, none, none, "user", 0⟩
        "x@y.com" "guess" 0).message ≠
      (login_submit (fun _ _ => false) c1db ⟨false, false, none, none, "user", 0⟩
        "bruce@we.com" "guess" 0).message := by
  decide

/-- C1 amended: both failure paths log an action that starts with the words
Login failed and show a message that starts with the generic text, but the
wrong-password path appends the remaining-attempts count to its message (and
records the attempt number in its audit action), so for a fresh registered
account the two responses are distinguishable and do reveal whether the
email is registered. -/
theorem c1_amended_responses_distinguishable (vp : String → String → Bool)
    (db : DBState) (sess : SessionState) (emailU emailR password : String) (now : Nat)
    (u : UserRecord)
    (hneU : emailU ≠ "") (hneR : emailR ≠ "") (hnp : password ≠ "")
    (hunknown : db.users emailU = none)
    (hu : db.users emailR = some u) (hl : u.lockout_until = none)
    (h0 : u.failed_login_attempts = 0)
    (hvp : vp password u.password_hash = false) :
    (login_submit vp db sess emailU password now).message = "❌ Invalid credentials" ∧
    (login_submit vp db sess emailR password now).message =
      "❌ Invalid credentials. 4 attempts remaining." ∧
    (login_submit vp db sess emailU password now).message ≠
      (login_submit vp db sess emailR password now).message ∧
    (login_submit vp db sess emailU password now).db.audit_logs =
      db.audit_logs ++ [⟨some emailU, "Login failed - user not found", "0.0.0.0"⟩] ∧
    (login_submit vp db sess emailR password now).db.audit_logs =
      db.audit_logs ++ [⟨some emailR, "Login failed - incorrect password (attempt 1)", "0.0.0.0"⟩] := by
  have hlockU := is_account_locked_of_no_user db emailU now hunknown
  have hlockR := is_account_locked_of_no_lockout db emailR now u hu hl
  have hmsgU : (login_submit vp db sess emailU password now).message = "❌ Invalid credentials" := by
    unfold login_submit
    rw [if_neg (by simp [hneU, hnp]), hlockU]
    simp [get_user, hunknown]
  have hauU : (login_submit vp db sess emailU password now).db.audit_logs =
      db.audit_logs ++ [⟨some emailU, "Login failed - user not found", "0.0.0.0"⟩] := by
    unfold login_submit
    rw [if_neg (by simp [hneU, hnp]), hlockU]
    simp [get_user, hunknown, log_audit]
  have hstr4 : ("❌ Invalid credentials. " ++ toString (4 : Nat) ++ " attempts remaining.") =
      "❌ Invalid credentials. 4 attempts remaining." := by decide
  have hstr1 : ("Login failed - incorrect password (attempt " ++ toString (1 : Nat) ++ ")") =
      "Login failed - incorrect password (attempt 1)" := by decide
  have hmsgR : (login_submit vp db sess emailR password now).message =
      "❌ Invalid credentials. 4 attempts remaining." := by
    unfold login_submit
    rw [if_neg (by simp [hneR, hnp]), hlockR]
    simp [get_user, hu, hvp, h0, log_audit]
    exact hstr4
  have hauR : (login_submit vp db sess emailR password now).db.audit_logs =
      db.audit_logs ++ [⟨some emailR, "Login failed - incorrect password (attempt 1)", "0.0.0.0"⟩] := by
    unfold login_submit
    rw [if_neg (by simp [hneR, hnp]), hlockR]
    simp [get_user, hu, hvp, h0, log_audit, update_failed_attempts,
      update_user_audit_logs, hstr1]
  refine ⟨hmsgU, hmsgR, ?_, hauU, hauR⟩
  rw [hmsgU, hmsgR]
  decide

/-- Single-user database for the C1 amended witness. -/
def c1wdb : DBState :=
  ⟨fun e => if e == "diana@we.com" then some ⟨"diana@we.com", "hw", "sw", 0, none, "admin"⟩
    else none, [], []⟩

/-- Witness for C1 amended at concrete emails, password and database. -/
theorem c1_amended_witness :
    (login_submit (fun _ _ => false) c1wdb ⟨false, false, none, none, "user", 0⟩
        "nobody@y.com" "pw" 3).message = "❌ Invalid credentials" ∧
    (login_submit (fun _ _ => false) c1wdb ⟨false, false, none, none, "user", 0⟩
        "nobody@y.com" "pw" 3).message ≠
      (login_submit (fun _ _ => false) c1wdb ⟨false, false, none, none, "user", 0⟩
        "diana@we.com" "pw" 3).message := by
  have h := c1_amended_responses_distinguishable (fun _ _ => false) c1wdb
    ⟨false, false, none, none, "user", 0⟩ "nobody@y.com" "diana@we.com" "pw" 3
    ⟨"diana@we.com", "hw", "sw", 0, none, "admin"⟩
    (by decide) (by decide) (by decide) (by decide) rfl rfl rfl rfl
  exact ⟨h.1, h.2.2.1⟩

/-- Empty database for the C5 counterexample. -/
def c5db : DBState := ⟨fun _ => none, [], []⟩

/-- Counterexample to C5 as stated: the unknown-user login path appends an
audit record whose action is the free-text string used by auth.py, and that
string is not an element of the fixed snake_case vocabulary the claim
prescribes. -/
theorem c5_counterexample :
    (login_submit (fun _ _ => false) c5db ⟨false, false, none, none, "user", 0⟩
        "x@y.com" "pw" 0).db.audit_logs =
      [⟨some "x@y.com", "Login failed - user not found", "0.0.0.0"⟩] ∧
    "Login failed - user not found" ∉ claimedAuditVocabulary := by
  decide

/-- C5 amended: every audit record appended by the login step carries one of
the free-text action strings hard-coded in auth.py (account locked, user not
found, incorrect password with the attempt number, or password verified),
and every record appended by add_transaction carries a free-text action of
the form Transaction added with the type and amount spliced in; the code
never writes the snake_case tags of the claimed vocabulary. -/
theorem c5_amended_audit_actions_free_text :
    (∀ (vp : String → String → Bool) (db : DBState) (sess : SessionState)
        (email password : String) (now : Nat) (r : AuditRecord),
      r ∈ (login_submit vp db sess email password now).db.audit_logs →
        r ∈ db.audit_logs ∨ actualLoginAction r.action) ∧
    (∀ (txnOk auditOk : Bool) (db : DBState) (ue ty am cat : String)
        (note : Option String) (r : AuditRecord),
      r ∈ (add_transaction txnOk auditOk db ue ty am cat note).2.audit_logs →
        r ∈ db.audit_logs ∨ ∃ t a, r.action = "Transaction added: " ++ t ++ " $" ++ a) := by
  constructor
  · intro vp db sess email password now r hr
    unfold login_submit at hr
    by_cases he : email = "" ∨ password = ""
    · rw [if_pos he] at hr
      exact Or.inl hr
    · rw [if_neg he] at hr
      rcases hlk : is_account_locked db email now with ⟨b, db1⟩
      rw [hlk] at hr
      have hdb1 : db1.audit_logs = db.audit_logs := by
        have h := is_account_locked_audit_logs db email now
        rw [hlk] at h
        exact h
      cases b with
      | true =>
        simp only [log_audit, List.mem_append, List.mem_singleton, hdb1] at hr
        rcases hr with hr | hr
        · exact Or.inl hr
        · subst hr
          exact Or.inr (Or.inl rfl)
      | false =>
        dsimp only at hr
        cases hg : get_user db1 email with
        | none =>
          rw [hg] at hr
          simp only [log_audit, List.mem_append, List.mem_singleton, hdb1] at hr
          rcases hr with hr | hr
          · exact Or.inl hr
          · subst hr
            exact Or.inr (Or.inr (Or.inl rfl))
        | some u =>
          rw [hg] at hr
          dsimp only at hr
          by_cases hv : vp password u.password_hash = true
          · rw [if_pos hv] at hr
            simp only [log_audit, reset_failed_attempts, update_user_audit_logs,
              List.mem_append, List.mem_singleton, hdb1] at hr
            rcases hr with hr | hr
            · exact Or.inl hr
            · subst hr
              exact Or.inr (Or.inr (Or.inr (Or.inr rfl)))
          · rw [if_neg hv] at hr
            simp only [log_audit, update_failed_attempts_audit_logs,
              List.mem_append, List.mem_singleton, hdb1] at hr
            have hr2 : r ∈ db.audit_logs ∨
                r = (⟨some email, "Login failed - incorrect password (attempt " ++
                  toString (u.failed_login_attempts + 1) ++ ")", "0.0.0.0"⟩ : AuditRecord) := by
              rcases hr with hr | hr
              · exact Or.inl hr
              · exact Or.inr hr
            rcases hr2 with hr2 | hr2
            · exact Or.inl hr2
            · subst hr2
              exact Or.inr (Or.inr (Or.inr (Or.inl ⟨u.failed_login_attempts + 1, rfl⟩)))
  · intro txnOk auditOk db ue ty am cat note r hr
    unfold add_transaction at hr
    cases txnOk with
    | false =>
      simp only [Bool.false_eq_true, if_false] at hr
      exact Or.inl hr
    | true =>
      simp only [if_true] at hr
      cases auditOk with
      | false =>
        simp only [log_audit_model, insert_audit, Bool.false_eq_true, if_false] at hr
        exact Or.inl hr
      | true =>
        simp only [log_audit_model, insert_audit, if_true, List.mem_append,
          List.mem_singleton] at hr
        rcases hr with hr | hr
        · exact Or.inl hr
        · subst hr
          exact Or.inr ⟨ty, am, rfl⟩

/-- Witness for C5 amended: the action logged on a concrete unknown-user
login is one of the free-text strings of auth.py. -/
theorem c5_amended_witness : actualLoginAction "Login failed - user not found" := by
  have h := c5_amended_audit_actions_free_text.1 (fun _ _ => false)
    ⟨fun _ => none, [], []⟩ ⟨false, false, none, none, "user", 0⟩ "x@z.com" "pw" 0
    ⟨some "x@z.com", "Login failed - user not found", "0.0.0.0"⟩ (by decide)
  rcases h with h | h
  · exact absurd h (by decide)
  · exact h
